import Mathlib

/-!
Shallow embedding of `wgsl-example/src/lib.rs`: a thin wgpu compute-dispatch
layer (GPU context bootstrap in `GpuConsts.initialaze`, buffer/binding and
command construction in `BufCoder.initializeCoder`, asynchronous readback in
`GpuConsts.run`), together with the CPU-side comparison helpers
`add_two_vec`, `sum_vec` and `optimized_sum_vec`.

Machine integers (`u32`) are modelled as `Nat` reduced modulo `2 ^ 32` at
each arithmetic operation.  Rust panics (`unwrap`, the `panic!` in
`GpuConsts::run`, the underflowing `end - start` subtraction in
`optimized_sum_vec`) are modelled as explicit failure outcomes (`Option`
or a dedicated outcome constructor).  Calls into the wgpu API are modelled
by recording the ordered trace of device operations the code performs,
with their arguments (labels, sizes, usage flags, initial contents).
-/

/-- Modulus of `u32` arithmetic. -/
def U32MOD : Nat := 2 ^ 32

/-- Wrapping `u32` addition: `a + b` reduced modulo `2 ^ 32`. -/
def addU32 (a b : Nat) : Nat := (a + b) % U32MOD

/-- Buffer usage flags appearing in the source (`wgpu::BufferUsages`). -/
inductive BufferUsage where
  | mapRead
  | copyDst
  | copySrc
  | storage
  deriving DecidableEq

/-- Identities of the five buffers `BufCoder::initialize` creates. -/
inductive BufId where
  | staging
  | storagePrimary
  | storageShared
  | storageGlobal
  | storageOutput
  deriving DecidableEq

/-- The `Bindings` struct of the source: up to four `Vec<u32>` roles. -/
structure Bindings where
  input_output : List Nat
  shared_memory : List Nat
  global_memory : List Nat
  output_vec : List Nat
  deriving DecidableEq

/-- `Bindings::initialize_one`: only the primary role is supplied. -/
def Bindings.initialize_one (input_output : List Nat) : Bindings :=
  { input_output := input_output, shared_memory := [], global_memory := [],
    output_vec := [] }

/-- `Bindings::initialize_two`. -/
def Bindings.initialize_two (input_output shared_memory : List Nat) : Bindings :=
  { input_output := input_output, shared_memory := shared_memory,
    global_memory := [], output_vec := [] }

/-- `Bindings::initialize_three`. -/
def Bindings.initialize_three (input_output shared_memory global_memory : List Nat) :
    Bindings :=
  { input_output := input_output, shared_memory := shared_memory,
    global_memory := global_memory, output_vec := [] }

/-- `Bindings::initialize_four`. -/
def Bindings.initialize_four (input_vec start e output_vec : List Nat) : Bindings :=
  { input_output := input_vec, shared_memory := start, global_memory := e,
    output_vec := output_vec }

/-- Byte width of one element, `std::mem::size_of::<u32>()`. -/
def wordSize : Nat := 4

/-- Commands recorded into the command encoder and submitted to the queue. -/
inductive Command where
  | computePass (entry : String) (entries : List (Nat × BufId)) (x y z : Nat)
  | copyBufferToBuffer (src : BufId) (srcOffset : Nat) (dst : BufId)
      (dstOffset : Nat) (size : Nat)
  deriving DecidableEq

/-- Device operations performed by `BufCoder::initialize`, in program order. -/
inductive DeviceOp where
  | createBuffer (id : BufId) (label : Option String) (size : Nat)
      (usage : List BufferUsage)
  | createBufferInit (id : BufId) (label : Option String) (contents : List Nat)
      (usage : List BufferUsage)
  | createComputePipeline (entry : String)
  | createBindGroup (entries : List (Nat × BufId))
  | submit (cmds : List Command)
  deriving DecidableEq

/-- The bind-group entry list built by the nested `if binding_number > k`
pushes in `BufCoder::initialize`: binding 0 is always the primary storage
buffer, bindings 1, 2, 3 are pushed for the shared, global and output
buffers when `binding_number` exceeds 1, 2, 3 respectively. -/
def bindingEntries (binding_number : Nat) : List (Nat × BufId) :=
  let e0 : List (Nat × BufId) := [(0, BufId.storagePrimary)]
  if binding_number > 1 then
    let e1 := e0 ++ [(1, BufId.storageShared)]
    if binding_number > 2 then
      let e2 := e1 ++ [(2, BufId.storageGlobal)]
      if binding_number > 3 then
        e2 ++ [(3, BufId.storageOutput)]
      else e2
    else e1
  else e0

/-- Observable record of one `BufCoder::initialize` call: the size of the
staging buffer that the returned `BufCoder` retains, and the ordered trace
of device operations. -/
structure DispatchRecord where
  staging_size : Nat
  ops : List DeviceOp
  deriving DecidableEq

/-- `BufCoder::initialize`: computes the byte size of the primary buffer,
creates the staging buffer, the primary storage buffer (initialized with
`input_output`), the compute pipeline, the three auxiliary storage buffers
(created unconditionally), the bind group (entries guarded by
`binding_number`), then submits one compute pass followed by one
storage-to-staging copy. -/
def BufCoder.initializeCoder (numbers : Bindings) (func_name : String)
    (binding_number : Nat) : DispatchRecord :=
  let slice_size := numbers.input_output.length * wordSize
  let size := slice_size
  { staging_size := size
  , ops :=
    [ DeviceOp.createBuffer BufId.staging none size
        [BufferUsage.mapRead, BufferUsage.copyDst]
    , DeviceOp.createBufferInit BufId.storagePrimary (some "Storage Buffer")
        numbers.input_output
        [BufferUsage.storage, BufferUsage.copyDst, BufferUsage.copySrc]
    , DeviceOp.createComputePipeline func_name
    , DeviceOp.createBufferInit BufId.storageShared (some "Shared Memory Buffer")
        numbers.shared_memory [BufferUsage.storage]
    , DeviceOp.createBufferInit BufId.storageGlobal (some "Global Memory Buffer")
        numbers.global_memory [BufferUsage.storage]
    , DeviceOp.createBufferInit BufId.storageOutput (some "Global Memory Buffer")
        numbers.output_vec [BufferUsage.storage]
    , DeviceOp.createBindGroup (bindingEntries binding_number)
    , DeviceOp.submit
        [ Command.computePass func_name (bindingEntries binding_number) 256 1 1
        , Command.copyBufferToBuffer BufId.storagePrimary 0 BufId.staging 0 size ]
    ] }

/-- Entry lists of every bind group created during the dispatch. -/
def DispatchRecord.bindGroups (r : DispatchRecord) : List (List (Nat × BufId)) :=
  r.ops.filterMap fun op =>
    match op with
    | DeviceOp.createBindGroup es => some es
    | _ => none

/-- Command lists of every queue submission during the dispatch. -/
def DispatchRecord.submits (r : DispatchRecord) : List (List Command) :=
  r.ops.filterMap fun op =>
    match op with
    | DeviceOp.submit cs => some cs
    | _ => none

/-- Size and usage of every data-less buffer created with the staging id. -/
def DispatchRecord.stagingAllocs (r : DispatchRecord) : List (Nat × List BufferUsage) :=
  r.ops.filterMap fun op =>
    match op with
    | DeviceOp.createBuffer BufId.staging _ sz u => some (sz, u)
    | _ => none

/-- Environment of one `GpuConsts::initialaze` call: the vendor id of the
adapter when `request_adapter` yields one, whether `request_device`
succeeds, and the result of `read_to_string` on the shader path (`none`
models an I/O failure). -/
structure GpuEnv where
  adapter : Option Nat
  deviceOk : Bool
  fileContents : Option String
  deriving DecidableEq

/-- Steps `GpuConsts::initialaze` performs, in program order. -/
inductive InitStep where
  | requestAdapter
  | requestDevice
  | getInfo
  | createShaderModule (source : String)
  deriving DecidableEq

/-- Outcome of `GpuConsts::initialaze`: `ok` with the compiled shader
source, an error string returned to the caller (`Err`), or a panic
(`unwrap` on a failed platform call). -/
inductive InitOutcome where
  | ok (shaderSource : String)
  | err (msg : String)
  | panicked (msg : String)
  deriving DecidableEq

/-- Whether the outcome is an error returned to the caller. -/
def InitOutcome.isErr : InitOutcome → Bool
  | InitOutcome.err _ => true
  | _ => false

/-- `GpuConsts::initialaze`: requests the adapter (`Err "adapter error"`
when none), requests the device (`unwrap`, so a platform failure panics),
reads the adapter info, rejects vendor `0x10005` with `Err "info error"`,
and only then reads the shader file (`read_to_string(..).unwrap()`, so an
I/O failure panics) and creates the shader module. -/
def GpuConsts.initialaze (env : GpuEnv) : InitOutcome × List InitStep :=
  match env.adapter with
  | none => (InitOutcome.err "adapter error", [InitStep.requestAdapter])
  | some vendor =>
    if env.deviceOk then
      if vendor = 0x10005 then
        (InitOutcome.err "info error",
         [InitStep.requestAdapter, InitStep.requestDevice, InitStep.getInfo])
      else
        match env.fileContents with
        | none =>
          (InitOutcome.panicked "read_to_string failed",
           [InitStep.requestAdapter, InitStep.requestDevice, InitStep.getInfo])
        | some src =>
          (InitOutcome.ok src,
           [InitStep.requestAdapter, InitStep.requestDevice, InitStep.getInfo,
            InitStep.createShaderModule src])
    else
      (InitOutcome.panicked "request_device failed",
       [InitStep.requestAdapter, InitStep.requestDevice])

/-- State of the staging buffer a `BufCoder` retains: its byte contents
after the submitted copy, and whether it is currently mapped. -/
structure StagingBuffer where
  bytes : List Nat
  mapped : Bool
  deriving DecidableEq

/-- Outcome of `GpuConsts::run`: the decoded `u32` result vector, or the
`panic!("failed to run compute on gpu!")` when the map signal fails. -/
inductive RunOutcome where
  | ok (result : List Nat)
  | panicked (msg : String)
  deriving DecidableEq

/-- `bytemuck::cast_slice` from bytes to `u32`: groups of four bytes
reinterpreted as little-endian 32-bit words. -/
def castToU32 : List Nat → List Nat
  | b0 :: b1 :: b2 :: b3 :: rest =>
      (b0 + b1 * 256 + b2 * 256 ^ 2 + b3 * 256 ^ 3) :: castToU32 rest
  | _ => []

/-- `GpuConsts::run`: maps the staging buffer for reading, polls the
device, and on a successful map signal copies the mapped bytes out as
`u32`s, drops the view and unmaps; on failure it panics.  The `BufCoder`
is taken by shared reference, so the staging buffer (and its contents)
survive the call. -/
def GpuConsts.run (mapOk : Bool) (bufcoder : StagingBuffer) :
    RunOutcome × StagingBuffer :=
  if mapOk then
    let data := bufcoder.bytes
    let result := castToU32 data
    (RunOutcome.ok result, { bytes := bufcoder.bytes, mapped := false })
  else
    (RunOutcome.panicked "failed to run compute on gpu!", bufcoder)

/-- `add_two_vec`: pushes `a[i] + b[i]` (wrapping `u32` addition) for
`i` in `0..cap`. -/
def add_two_vec (a b : List Nat) (cap : Nat) : List Nat :=
  (List.range cap).foldl (fun res i => res ++ [addU32 (a.getD i 0) (b.getD i 0)]) []

/-- `sum_vec`: accumulates `res += a[i]` (wrapping `u32` addition) for
`i` in `0..cap`. -/
def sum_vec (a : List Nat) (cap : Nat) : Nat :=
  (List.range cap).foldl (fun res i => addU32 res (a.getD i 0)) 0

/-- `optimized_sum_vec`: divide-and-conquer sum over `arr[start..=e]`.
Out-of-bounds indexing yields `none` (a Rust index panic), and the guard
`e < start` yields `none`, modelling the debug-mode underflow panic of
the source's `end - start` subtraction. -/
def optimized_sum_vec (arr : List Nat) (start : Nat) (e : Nat) : Option Nat :=
  if _h1 : e = start then arr[e]?
  else if _h2 : e < start then none
  else if _h3 : e - start = 1 then
    match arr[start]?, arr[e]? with
    | some a, some b => some (addU32 a b)
    | _, _ => none
  else
    match optimized_sum_vec arr start ((e - start) / 2 + start),
          optimized_sum_vec arr ((e - start) / 2 + start + 1) e with
    | some l, some r => some (addU32 l r)
    | _, _ => none
termination_by e - start
decreasing_by
  all_goals omega

/-- Plain natural-number sum of the elements `arr[s..=e]`. -/
def listSumRange (arr : List Nat) (s e : Nat) : Nat :=
  ((arr.drop s).take (e - s + 1)).sum

/-- Helper: a fold that pushes `f i` onto an accumulator list is a map. -/
theorem foldl_push_eq_map {α β : Type} (f : α → β) (l : List α) :
    ∀ init : List β, l.foldl (fun res i => res ++ [f i]) init = init ++ l.map f := by
  induction l with
  | nil => intro init; simp
  | cons x xs ih => intro init; simp [ih]

/-- Helper: `add_two_vec` written as a map over the index range. -/
theorem add_two_vec_eq_map (a b : List Nat) (cap : Nat) :
    add_two_vec a b cap =
      (List.range cap).map fun i => addU32 (a.getD i 0) (b.getD i 0) := by
  unfold add_two_vec
  simpa using
    foldl_push_eq_map (fun i => addU32 (a.getD i 0) (b.getD i 0)) (List.range cap) []

/-- Helper: `sum_vec a cap` is the plain sum of the first `cap` elements,
reduced modulo `2 ^ 32`. -/
theorem sum_vec_eq_take_sum (a : List Nat) (cap : Nat) :
    sum_vec a cap = (a.take cap).sum % U32MOD := by
  induction cap with
  | zero => rfl
  | succ m ih =>
    unfold sum_vec at ih ⊢
    rw [List.range_succ, List.foldl_append, List.foldl_cons, List.foldl_nil, ih]
    unfold addU32
    rw [Nat.mod_add_mod, List.take_succ, List.sum_append]
    cases h : a[m]? with
    | none => simp [h]
    | some x => simp [h]

/-- Helper: splitting the range sum at `mid`. -/
theorem listSumRange_split (arr : List Nat) (s mid e : Nat) (h1 : s ≤ mid)
    (h2 : mid < e) :
    listSumRange arr s e = listSumRange arr s mid + listSumRange arr (mid + 1) e := by
  unfold listSumRange
  have h3 : e - s + 1 = (mid - s + 1) + (e - (mid + 1) + 1) := by omega
  rw [h3, List.take_add, List.sum_append, List.drop_drop]
  have h4 : s + (mid - s + 1) = mid + 1 := by omega
  rw [h4]

/-- Helper: the range sum of a single element. -/
theorem listSumRange_single (arr : List Nat) (s : Nat) (h : s < arr.length) :
    listSumRange arr s s = arr[s] := by
  unfold listSumRange
  have h2 : s - s + 1 = 1 := by omega
  rw [h2, List.drop_eq_getElem_cons h]
  simp only [List.take_succ_cons, List.take_zero, List.sum_cons, List.sum_nil,
    Nat.add_zero]

/-- Helper: the range sum of two adjacent elements. -/
theorem listSumRange_pair (arr : List Nat) (s : Nat) (h : s + 1 < arr.length) :
    listSumRange arr s (s + 1) = arr[s] + arr[s + 1] := by
  unfold listSumRange
  have h0 : s < arr.length := by omega
  rw [List.drop_eq_getElem_cons h0]
  have h1 : s + 1 - s + 1 = 2 := by omega
  rw [h1, List.drop_eq_getElem_cons (show s + 1 < arr.length from h)]
  simp only [List.take_succ_cons, List.take_zero, List.sum_cons, List.sum_nil,
    Nat.add_zero]

/-- Helper: decoding `4 * k` bytes yields `k` words. -/
theorem castToU32_length : ∀ (k : Nat) (l : List Nat), l.length = 4 * k →
    (castToU32 l).length = k := by
  intro k
  induction k with
  | zero =>
    intro l hl
    have h0 : l = [] := List.length_eq_zero.mp (by omega)
    subst h0
    rfl
  | succ m ih =>
    intro l hl
    match l with
    | [] => simp at hl
    | [_] => simp at hl; omega
    | [_, _] => simp at hl; omega
    | [_, _, _] => simp at hl; omega
    | b0 :: b1 :: b2 :: b3 :: rest =>
      unfold castToU32
      simp only [List.length_cons]
      rw [ih rest (by simp at hl; omega)]

/-- Helper: on an in-bounds, well-ordered range, `optimized_sum_vec`
computes the plain range sum modulo `2 ^ 32` (elements are `u32`, hence
below the modulus). -/
theorem optimized_sum_vec_eq (arr : List Nat) (hlt : ∀ x ∈ arr, x < U32MOD) :
    ∀ n s e, e - s = n → s ≤ e → e < arr.length →
      optimized_sum_vec arr s e = some (listSumRange arr s e % U32MOD) := by
  intro n
  induction n using Nat.strong_induction_on with
  | _ n ih =>
    intro s e hn hse hlen
    unfold optimized_sum_vec
    by_cases h1 : e = s
    · subst h1
      rw [dif_pos rfl, List.getElem?_eq_getElem hlen]
      have hmem : arr[e] ∈ arr := List.getElem_mem hlen
      rw [listSumRange_single arr e hlen, Nat.mod_eq_of_lt (hlt _ hmem)]
    · rw [dif_neg h1, dif_neg (show ¬ e < s by omega)]
      by_cases h3 : e - s = 1
      · rw [dif_pos h3]
        have he : e = s + 1 := by omega
        subst he
        have hs : s < arr.length := by omega
        rw [List.getElem?_eq_getElem hs, List.getElem?_eq_getElem hlen,
          listSumRange_pair arr s hlen]
        rfl
      · rw [dif_neg h3]
        have hleft := ih (((e - s) / 2 + s) - s) (by omega) s ((e - s) / 2 + s)
          rfl (by omega) (by omega)
        have hright := ih (e - ((e - s) / 2 + s + 1)) (by omega)
          ((e - s) / 2 + s + 1) e rfl (by omega) hlen
        rw [hleft, hright]
        show some (addU32 (listSumRange arr s ((e - s) / 2 + s) % U32MOD)
              (listSumRange arr ((e - s) / 2 + s + 1) e % U32MOD)) =
          some (listSumRange arr s e % U32MOD)
        rw [listSumRange_split arr s ((e - s) / 2 + s) e (by omega) (by omega)]
        unfold addU32
        conv_rhs => rw [Nat.add_mod]

/-- Helper: on an in-bounds, well-ordered range, `optimized_sum_vec`
returns a value (no index panic, no underflow). -/
theorem optimized_sum_vec_isSome (arr : List Nat) :
    ∀ n s e, e - s = n → s ≤ e → e < arr.length →
      (optimized_sum_vec arr s e).isSome = true := by
  intro n
  induction n using Nat.strong_induction_on with
  | _ n ih =>
    intro s e hn hse hlen
    unfold optimized_sum_vec
    by_cases h1 : e = s
    · subst h1
      rw [dif_pos rfl, List.getElem?_eq_getElem hlen]
      rfl
    · rw [dif_neg h1, dif_neg (show ¬ e < s by omega)]
      by_cases h3 : e - s = 1
      · rw [dif_pos h3]
        have hs : s < arr.length := by omega
        rw [List.getElem?_eq_getElem hs, List.getElem?_eq_getElem hlen]
        rfl
      · rw [dif_neg h3]
        have hleft := ih (((e - s) / 2 + s) - s) (by omega) s ((e - s) / 2 + s)
          rfl (by omega) (by omega)
        have hright := ih (e - ((e - s) / 2 + s + 1)) (by omega)
          ((e - s) / 2 + s + 1) e rfl (by omega) hlen
        obtain ⟨l, hl⟩ := Option.isSome_iff_exists.mp hleft
        obtain ⟨r, hr⟩ := Option.isSome_iff_exists.mp hright
        rw [hl, hr]
        rfl

/-- Claim C1 (counterexample): with `binding_number = 1`, a GPU buffer for
the shared role IS allocated (the source calls `create_buffer_init` for
the shared, global and output buffers unconditionally, before the
`if binding_number > 1` guard), refuting the claim that no buffer is
allocated for an inactive role. -/
theorem claim_C1_counterexample :
    DeviceOp.createBufferInit BufId.storageShared (some "Shared Memory Buffer")
        ([] : List Nat) [BufferUsage.storage]
      ∈ (BufCoder.initializeCoder (Bindings.initialize_one [1, 2, 3]) "main" 1).ops := by
  decide

/-- Claim C1 (amended): with `binding_number = 1` no shared, global or
output role is bound — the single bind group contains exactly one entry,
binding 0 for the primary storage buffer — but GPU buffers for the shared,
global and output roles are nevertheless allocated (unconditionally), just
never bound. -/
theorem claim_C1_amended (numbers : Bindings) (fn : String) :
    (BufCoder.initializeCoder numbers fn 1).bindGroups = [[(0, BufId.storagePrimary)]] ∧
    DeviceOp.createBufferInit BufId.storageShared (some "Shared Memory Buffer")
        numbers.shared_memory [BufferUsage.storage]
      ∈ (BufCoder.initializeCoder numbers fn 1).ops ∧
    DeviceOp.createBufferInit BufId.storageGlobal (some "Global Memory Buffer")
        numbers.global_memory [BufferUsage.storage]
      ∈ (BufCoder.initializeCoder numbers fn 1).ops ∧
    DeviceOp.createBufferInit BufId.storageOutput (some "Global Memory Buffer")
        numbers.output_vec [BufferUsage.storage]
      ∈ (BufCoder.initializeCoder numbers fn 1).ops := by
  refine ⟨rfl, ?_, ?_, ?_⟩ <;> simp [BufCoder.initializeCoder]

/-- Claim C2 (counterexample): in an environment where the adapter and
device are obtained (vendor 0, not blacklisted) but reading the shader
file fails, `GpuConsts::initialaze` panics (the source calls
`read_to_string(filename).unwrap()`) instead of returning a recoverable
error, and the device has already been requested on that path. -/
theorem claim_C2_counterexample :
    (GpuConsts.initialaze (GpuEnv.mk (some 0) true none)).1 =
      InitOutcome.panicked "read_to_string failed" ∧
    (GpuConsts.initialaze (GpuEnv.mk (some 0) true none)).1.isErr = false ∧
    InitStep.requestDevice ∈ (GpuConsts.initialaze (GpuEnv.mk (some 0) true none)).2 := by
  refine ⟨rfl, rfl, ?_⟩
  simp [GpuConsts.initialaze]

/-- Claim C2 (amended): for every environment in which a non-blacklisted
adapter and a device are obtained but reading the shader file fails,
`GpuConsts::initialaze` panics (aborts) rather than returning an error to
the caller; the adapter and device have already been requested before the
read is attempted, and no shader module is created on that path. -/
theorem claim_C2_amended (env : GpuEnv) (v : Nat) (ha : env.adapter = some v)
    (hv : v ≠ 0x10005) (hd : env.deviceOk = true) (hf : env.fileContents = none) :
    (GpuConsts.initialaze env).1 = InitOutcome.panicked "read_to_string failed" ∧
    (GpuConsts.initialaze env).1.isErr = false ∧
    InitStep.requestDevice ∈ (GpuConsts.initialaze env).2 ∧
    ∀ src, InitStep.createShaderModule src ∉ (GpuConsts.initialaze env).2 := by
  obtain ⟨a, d, f⟩ := env
  simp only at ha hd hf
  subst ha
  subst hd
  subst hf
  simp [GpuConsts.initialaze, hv, InitOutcome.isErr]

/-- Witness for the amended claim C2 at a concrete environment. -/
theorem claim_C2_amended_witness :
    (GpuConsts.initialaze (GpuEnv.mk (some 0) true none)).1 =
      InitOutcome.panicked "read_to_string failed" ∧
    (GpuConsts.initialaze (GpuEnv.mk (some 0) true none)).1.isErr = false ∧
    InitStep.requestDevice ∈ (GpuConsts.initialaze (GpuEnv.mk (some 0) true none)).2 ∧
    ∀ src, InitStep.createShaderModule src ∉
      (GpuConsts.initialaze (GpuEnv.mk (some 0) true none)).2 :=
  claim_C2_amended (GpuEnv.mk (some 0) true none) 0 rfl (by decide) rfl rfl

/-- Claim C3 (counterexample): `GpuConsts::run` takes the `BufCoder` by
shared reference, so resolving twice does not fail: the second call maps
the (unmapped but still live) staging buffer again and returns the same
decoded data, rather than any `AlreadyResolved` error. -/
theorem claim_C3_counterexample :
    (GpuConsts.run true (StagingBuffer.mk [1, 0, 0, 0] false)).1 =
      RunOutcome.ok [1] ∧
    (GpuConsts.run true
        (GpuConsts.run true (StagingBuffer.mk [1, 0, 0, 0] false)).2).1 =
      RunOutcome.ok [1] := by
  constructor <;> rfl

/-- Claim C3 (amended): `GpuConsts::run` does not consume or invalidate
the handle: for every staging-buffer state, a first successful resolve
returns the decoded staging contents, and a second resolve on the same
handle succeeds again with the same data; no `AlreadyResolved` (or any
error) value exists — the only non-success outcome of `run` is the panic
on a failed map signal. -/
theorem claim_C3_amended (buf : StagingBuffer) :
    (GpuConsts.run true buf).1 = RunOutcome.ok (castToU32 buf.bytes) ∧
    (GpuConsts.run true (GpuConsts.run true buf).2).1 =
      RunOutcome.ok (castToU32 buf.bytes) ∧
    ∀ msg, (GpuConsts.run true buf).1 ≠ RunOutcome.panicked msg := by
  refine ⟨rfl, rfl, ?_⟩
  intro msg h
  simp [GpuConsts.run] at h

/-- Map from binding number to the buffer bound there, in the fixed role
order of the source: primary, shared, global, output. -/
def roleBuf : Nat → BufId
  | 0 => BufId.storagePrimary
  | 1 => BufId.storageShared
  | 2 => BufId.storageGlobal
  | _ => BufId.storageOutput

/-- Claim C5: for every `binding_count` in `1..=4`, the dispatch builds
exactly one bind group whose entries are exactly the bindings numbered
`0` through `binding_count - 1`, with no gaps, in the fixed role order
primary, shared, global, output. -/
theorem claim_C5 (numbers : Bindings) (fn : String) (n : Nat) (h1 : 1 ≤ n)
    (h4 : n ≤ 4) :
    (BufCoder.initializeCoder numbers fn n).bindGroups =
      [(List.range n).map fun i => (i, roleBuf i)] := by
  interval_cases n <;> rfl

/-- Witness for claim C5 at a concrete dispatch with two bindings. -/
theorem claim_C5_witness :
    (BufCoder.initializeCoder (Bindings.initialize_two [1] [2]) "main" 2).bindGroups =
      [(List.range 2).map fun i => (i, roleBuf i)] :=
  claim_C5 (Bindings.initialize_two [1] [2]) "main" 2 (by decide) (by decide)

/-- Claim C6: whenever the obtained adapter's vendor id is `0x10005`,
`GpuConsts::initialaze` returns the blacklisted-adapter error (the source's
`Err("info error")`) and no shader module is created on that path. -/
theorem claim_C6 (env : GpuEnv) (v : Nat) (ha : env.adapter = some v)
    (hv : v = 0x10005) (hd : env.deviceOk = true) :
    (GpuConsts.initialaze env).1 = InitOutcome.err "info error" ∧
    ∀ src, InitStep.createShaderModule src ∉ (GpuConsts.initialaze env).2 := by
  obtain ⟨a, d, f⟩ := env
  simp only at ha hd
  subst ha
  subst hd
  subst hv
  simp [GpuConsts.initialaze]

/-- Witness for claim C6 at a concrete environment. -/
theorem claim_C6_witness :
    (GpuConsts.initialaze (GpuEnv.mk (some 0x10005) true (some "src"))).1 =
      InitOutcome.err "info error" ∧
    ∀ src, InitStep.createShaderModule src ∉
      (GpuConsts.initialaze (GpuEnv.mk (some 0x10005) true (some "src"))).2 :=
  claim_C6 (GpuEnv.mk (some 0x10005) true (some "src")) 0x10005 rfl rfl rfl

/-- Claim C4: for in-bounds indices `start <= e < arr.length` (over `u32`
elements), the divide-and-conquer `optimized_sum_vec arr start e` returns
the value of the iterative `sum_vec` over the subrange `arr[start..=e]`. -/
theorem claim_C4 (arr : List Nat) (s e : Nat) (hlt : ∀ x ∈ arr, x < U32MOD)
    (hse : s ≤ e) (hlen : e < arr.length) :
    optimized_sum_vec arr s e =
      some (sum_vec ((arr.drop s).take (e - s + 1)) (e - s + 1)) := by
  rw [optimized_sum_vec_eq arr hlt (e - s) s e rfl hse hlen, sum_vec_eq_take_sum,
    List.take_take, Nat.min_self]
  rfl

/-- Witness for claim C4 at the spec's scenario:
`recursive_sum([5,3,8,1], 0, 3)` equals `total_sum([5,3,8,1], 4)`,
both being 17. -/
theorem claim_C4_witness :
    (optimized_sum_vec [5, 3, 8, 1] 0 3 =
      some (sum_vec ((([5, 3, 8, 1] : List Nat).drop 0).take (3 - 0 + 1))
        (3 - 0 + 1))) ∧
    sum_vec [5, 3, 8, 1] 4 = 17 ∧
    optimized_sum_vec [5, 3, 8, 1] 0 3 = some 17 := by
  have h := claim_C4 [5, 3, 8, 1] 0 3 (by decide) (by decide) (by decide)
  refine ⟨h, by decide, ?_⟩
  rw [h]
  decide

/-- Claim C7: for every pair of inputs and every `cap` within both
lengths, `add_two_vec a b cap` has length exactly `cap` and its `i`-th
element is `(a[i] + b[i]) % 2 ^ 32`, preserving element order. -/
theorem claim_C7 (a b : List Nat) (cap : Nat) (h1 : cap ≤ a.length)
    (h2 : cap ≤ b.length) :
    (add_two_vec a b cap).length = cap ∧
    ∀ i, i < cap → (add_two_vec a b cap).getD i 0 =
      (a.getD i 0 + b.getD i 0) % U32MOD := by
  rw [add_two_vec_eq_map]
  constructor
  · simp
  · intro i hi
    rw [List.getD_eq_getElem?_getD, List.getElem?_map, List.getElem?_range hi]
    rfl

/-- Witness for claim C7 at a concrete pair of vectors. -/
theorem claim_C7_witness :
    (add_two_vec [1, 2] [3, 4] 2).length = 2 ∧
    ∀ i, i < 2 → (add_two_vec [1, 2] [3, 4] 2).getD i 0 =
      (([1, 2] : List Nat).getD i 0 + ([3, 4] : List Nat).getD i 0) % U32MOD :=
  claim_C7 [1, 2] [3, 4] 2 (by decide) (by decide)

/-- Claim C8: the staging buffer is allocated with byte size exactly
4 times the primary sequence's element count and with usage map-read plus
copy-destination only (not shader-usable storage); given staging contents
of that byte size, the result sequence `run` produces (the bytes decoded
as width-4 little-endian words) has length exactly the primary
sequence's length. -/
theorem claim_C8 (numbers : Bindings) (fn : String) (n : Nat) (bytes : List Nat)
    (hb : bytes.length = (BufCoder.initializeCoder numbers fn n).staging_size) :
    (BufCoder.initializeCoder numbers fn n).staging_size =
      numbers.input_output.length * wordSize ∧
    (BufCoder.initializeCoder numbers fn n).stagingAllocs =
      [(numbers.input_output.length * wordSize,
        [BufferUsage.mapRead, BufferUsage.copyDst])] ∧
    BufferUsage.storage ∉ [BufferUsage.mapRead, BufferUsage.copyDst] ∧
    (GpuConsts.run true (StagingBuffer.mk bytes false)).1 =
      RunOutcome.ok (castToU32 bytes) ∧
    (castToU32 bytes).length = numbers.input_output.length := by
  refine ⟨rfl, rfl, by decide, rfl, ?_⟩
  apply castToU32_length
  rw [hb]
  show numbers.input_output.length * wordSize = 4 * numbers.input_output.length
  unfold wordSize
  omega

/-- Witness for claim C8 at a concrete dispatch with two elements. -/
theorem claim_C8_witness :
    (BufCoder.initializeCoder (Bindings.initialize_one [1, 2]) "main" 1).staging_size =
      (Bindings.initialize_one [1, 2]).input_output.length * wordSize ∧
    (BufCoder.initializeCoder (Bindings.initialize_one [1, 2]) "main" 1).stagingAllocs =
      [((Bindings.initialize_one [1, 2]).input_output.length * wordSize,
        [BufferUsage.mapRead, BufferUsage.copyDst])] ∧
    BufferUsage.storage ∉ [BufferUsage.mapRead, BufferUsage.copyDst] ∧
    (GpuConsts.run true (StagingBuffer.mk [1, 0, 0, 0, 2, 0, 0, 0] false)).1 =
      RunOutcome.ok (castToU32 [1, 0, 0, 0, 2, 0, 0, 0]) ∧
    (castToU32 [1, 0, 0, 0, 2, 0, 0, 0]).length =
      (Bindings.initialize_one [1, 2]).input_output.length :=
  claim_C8 (Bindings.initialize_one [1, 2]) "main" 1 [1, 0, 0, 0, 2, 0, 0, 0]
    (by decide)

/-- Claim C9: the dispatch submits exactly one command list, consisting of
exactly one compute pass (invoking the pipeline for the requested entry
point with a fixed grid of 256 workgroups along one axis) followed by
exactly one copy from the primary storage buffer into the staging buffer;
the upload of the primary data (its initializing buffer creation) occurs
strictly before that submission in the recorded operation order. -/
theorem claim_C9 (numbers : Bindings) (fn : String) (n : Nat) :
    ∃ pre,
      (BufCoder.initializeCoder numbers fn n).ops = pre ++
          [DeviceOp.submit
            [Command.computePass fn (bindingEntries n) 256 1 1,
             Command.copyBufferToBuffer BufId.storagePrimary 0 BufId.staging 0
               (numbers.input_output.length * wordSize)]] ∧
      DeviceOp.createBufferInit BufId.storagePrimary (some "Storage Buffer")
          numbers.input_output
          [BufferUsage.storage, BufferUsage.copyDst, BufferUsage.copySrc] ∈ pre ∧
      (BufCoder.initializeCoder numbers fn n).submits =
        [[Command.computePass fn (bindingEntries n) 256 1 1,
          Command.copyBufferToBuffer BufId.storagePrimary 0 BufId.staging 0
            (numbers.input_output.length * wordSize)]] := by
  refine ⟨[DeviceOp.createBuffer BufId.staging none
        (numbers.input_output.length * wordSize)
        [BufferUsage.mapRead, BufferUsage.copyDst],
      DeviceOp.createBufferInit BufId.storagePrimary (some "Storage Buffer")
        numbers.input_output
        [BufferUsage.storage, BufferUsage.copyDst, BufferUsage.copySrc],
      DeviceOp.createComputePipeline fn,
      DeviceOp.createBufferInit BufId.storageShared (some "Shared Memory Buffer")
        numbers.shared_memory [BufferUsage.storage],
      DeviceOp.createBufferInit BufId.storageGlobal (some "Global Memory Buffer")
        numbers.global_memory [BufferUsage.storage],
      DeviceOp.createBufferInit BufId.storageOutput (some "Global Memory Buffer")
        numbers.output_vec [BufferUsage.storage],
      DeviceOp.createBindGroup (bindingEntries n)], rfl, ?_, rfl⟩
  simp

/-- Claim C10: for `start <= e < arr.length`, `optimized_sum_vec` is
total — every index access is in bounds and the recursion terminates (the
Lean definition carries the `e - start` termination measure) — while for
`e < start` the subtraction `e - start` underflows and the modelled
computation immediately fails, so `start <= e` is a genuine
precondition. -/
theorem claim_C10 (arr : List Nat) (s e : Nat) :
    (s ≤ e → e < arr.length → (optimized_sum_vec arr s e).isSome = true) ∧
    (e < s → optimized_sum_vec arr s e = none) := by
  constructor
  · intro h1 h2
    exact optimized_sum_vec_isSome arr (e - s) s e rfl h1 h2
  · intro h
    unfold optimized_sum_vec
    rw [dif_neg (show ¬ e = s by omega), dif_pos h]

/-- Witness for claim C10: in-bounds totality at the spec's scenario, and
the underflow failure at a reversed range. -/
theorem claim_C10_witness :
    (optimized_sum_vec [5, 3, 8, 1] 0 3).isSome = true ∧
    optimized_sum_vec [5, 3, 8, 1] 3 1 = none :=
  ⟨(claim_C10 [5, 3, 8, 1] 0 3).1 (by decide) (by decide),
   (claim_C10 [5, 3, 8, 1] 3 1).2 (by decide)⟩
